import Mathlib

set_option maxRecDepth 8000

/-!
Shallow embedding of the Playwright migration CLI (src/cli.js, two migrator
classes) and of the step-definition file (src/common.steps.ts).

Text is modelled as List Char. The transformation rules of the CLI are
JavaScript regular expressions applied with String.replace and the g flag;
they are embedded as a small regex AST together with a backtracking matcher
that reproduces the JavaScript semantics used by the rules: leftmost match,
greedy quantifiers with backtracking, ordered alternation, capture groups,
negative lookahead, negative lookbehind, word boundaries and the end anchor.
The whitespace class is modelled over the ASCII whitespace characters, which
covers every input considered here. Replacement scans the original string and
continues after each match, exactly as String.replace with the g flag does;
lookbehind inspects the original string.
-/

/-- Regex AST covering the constructs used by the rules of src/cli.js. -/
inductive RE where
  | eps
  | ch (c : Char)
  | cls (neg : Bool) (cs : List Char)
  | seq (a b : RE)
  | alt (a b : RE)
  | star (r : RE)
  | opt (r : RE)
  | grp (n : Nat) (r : RE)
  | nla (r : RE)
  | nlb (r : RE)
  | wb
  | eos
deriving Repr

/-- Sequence a list of regexes. -/
def RE.cat : List RE → RE
  | [] => .eps
  | [r] => r
  | r :: rest => .seq r (RE.cat rest)

/-- Literal string as a regex. -/
def RE.str (x : String) : RE := RE.cat (x.data.map RE.ch)

/-- One or more, greedy. -/
def RE.pls (r : RE) : RE := .seq r (.star r)

/-- Is c a word character (JavaScript \\w)? -/
def isWordC (c : Char) : Bool := c.isAlphanum || c == '_'

/-- Matcher state: k counts the characters consumed since the start of the
current match attempt, pre is the reversed input text before the current
position (the whole input before it, not only the match), rest is the
remaining input, cp the captures made so far as (group index, text). -/
structure MSt where
  k : Nat
  pre : List Char
  rest : List Char
  cp : List (Nat × List Char)
deriving Repr

/-- All ways the regex can match at the state position, in backtracking
priority order; the first element is the match the JavaScript engine
produces. Greedy quantifiers try the longer continuation first, alternation
is ordered, lookarounds consume nothing. A negative lookbehind succeeds
when the body matches no contiguous span ending at the current position;
the bodies used here contain no anchors, so matching them against the
prefix in isolation is exact. The fuel bounds the call depth; every level
of the pattern and every quantifier iteration consumes one unit, so the
fuel passed by the entry points below is always sufficient. -/
def mrun : Nat → RE → MSt → List MSt
  | 0, _, _ => []
  | fuel+1, r, st =>
    match r with
    | .eps => [st]
    | .ch c =>
        match st.rest with
        | c' :: rest' => if c' = c then [⟨st.k + 1, c' :: st.pre, rest', st.cp⟩] else []
        | [] => []
    | .cls neg cs =>
        match st.rest with
        | c' :: rest' =>
            if (cs.contains c') != neg then [⟨st.k + 1, c' :: st.pre, rest', st.cp⟩] else []
        | [] => []
    | .seq a b => (mrun fuel a st).flatMap (fun st' => mrun fuel b st')
    | .alt a b => mrun fuel a st ++ mrun fuel b st
    | .star r' =>
        ((mrun fuel r' st).filter (fun st' => decide (st.k < st'.k))).flatMap
          (fun st' => mrun fuel (.star r') st') ++ [st]
    | .opt r' => mrun fuel r' st ++ [st]
    | .grp n r' =>
        (mrun fuel r' st).map
          (fun st' => { st' with cp := (n, st.rest.take (st'.k - st.k)) :: st'.cp })
    | .nla r' => if (mrun fuel r' st).isEmpty then [st] else []
    | .nlb r' =>
        if (st.pre.reverse.tails.any
              (fun t => (mrun fuel r' ⟨0, [], t, []⟩).any (fun st' => st'.rest.isEmpty)))
        then [] else [st]
    | .wb =>
        let pv := match st.pre with | c :: _ => isWordC c | [] => false
        let cv := match st.rest with | c :: _ => isWordC c | [] => false
        if pv != cv then [st] else []
    | .eos => if st.rest.isEmpty then [st] else []

/-- Fuel that always suffices for one match attempt on an input of length n:
the nesting depth of a match is bounded by the pattern size plus a small
multiple of the input length (each quantifier iteration consumes input). -/
def mfuel (n : Nat) : Nat := 4 * n + 600

/-- Replacement template part: literal text or a capture reference ($n). -/
inductive Tp where
  | lit (x : String)
  | cap (n : Nat)
deriving Repr

/-- Instantiate a template against the captures of a match. -/
def instTm (cp : List (Nat × List Char)) : List Tp → List Char
  | [] => []
  | .lit x :: rest => x.data ++ instTm cp rest
  | .cap n :: rest =>
      (match cp.find? (fun q => q.1 == n) with
       | some q => q.2
       | none => []) ++ instTm cp rest

/-- Global-replacement loop, matching JavaScript String.replace with the g
flag: at each position try the regex against the original input; on a match
emit the instantiated template and continue after the match (copying one
character and advancing by one if the match is empty); otherwise copy the
character and advance. The position strictly advances on every recursive
call, so the fuel passed by replaceAll is always sufficient. -/
def replGo (r : RE) (t : List Tp) (fl : Nat) : Nat → List Char → List Char → List Char
  | 0, _, rest => rest
  | fuel+1, pre, rest =>
      match (mrun fl r ⟨0, pre, rest, []⟩).head? with
      | some st =>
          if st.k = 0 then
            instTm st.cp t ++
              (match rest with
               | [] => []
               | c :: rest' => c :: replGo r t fl fuel (c :: pre) rest')
          else instTm st.cp t ++ replGo r t fl fuel st.pre st.rest
      | none =>
          match rest with
          | [] => []
          | c :: rest' => c :: replGo r t fl fuel (c :: pre) rest'

/-- content.replace(re, tmpl) with the g flag. -/
def replaceAll (r : RE) (t : List Tp) (s : List Char) : List Char :=
  replGo r t (mfuel s.length) (s.length + 1) [] s

/-- Scan loop for re.test(content). -/
def hasMGo (r : RE) (fl : Nat) : Nat → List Char → List Char → Bool
  | 0, _, _ => false
  | fuel+1, pre, rest =>
      !(mrun fl r ⟨0, pre, rest, []⟩).isEmpty ||
      (match rest with
       | [] => false
       | c :: rest' => hasMGo r fl fuel (c :: pre) rest')

/-- re.test(content). -/
def hasMatch (r : RE) (s : List Char) : Bool :=
  hasMGo r (mfuel s.length) (s.length + 1) [] s

/-- Does s start with the prefix n? -/
def startsL : List Char → List Char → Bool
  | [], _ => true
  | _ :: _, [] => false
  | a :: as, b :: bs => a == b && startsL as bs

/-- content.includes(n): n occurs somewhere in s. -/
def hasSub (n : List Char) : List Char → Bool
  | [] => startsL n []
  | c :: cs => startsL n (c :: cs) || hasSub n cs

example : replaceAll (RE.str "ab") [Tp.lit "X"] "zabab".data = "zXX".data := by decide
example : hasSub "bc".data "abcd".data = true := by decide
example : hasMatch (RE.cat [RE.str "a", RE.pls (RE.cls false [' ']), RE.str "b"]) "a   b".data = true := by
  decide

/-! ### Shared regex pieces -/

/-- Character class for a quote: JavaScript pattern fragment with either quote. -/
def qt : RE := .cls false ['\'', '"']

/-- Negated class excluding both quotes. -/
def nq : RE := .cls true ['\'', '"']

/-- ASCII whitespace characters modelling the JavaScript whitespace class. -/
def wsChars : List Char := [' ', '\t', '\n', '\r', '\x0b', '\x0c']

/-- One whitespace character. -/
def wsp : RE := .cls false wsChars

/-- Zero or more whitespace characters. -/
def wss : RE := .star wsp

/-- One digit. -/
def dgt : RE := .cls false ['0', '1', '2', '3', '4', '5', '6', '7', '8', '9']

/-- Negated class excluding a closing parenthesis. -/
def np : RE := .cls true [')']

/-- Negated class excluding a comma. -/
def nc : RE := .cls true [',']

/-- Quoted capture argument: a quote, capture group n of one or more
non-quote characters, a quote. -/
def argQ (n : Nat) : RE := .cat [qt, .grp n (RE.pls nq), qt]

/-- Capture group n holding a quoted string including its quotes. -/
def qstr (n : Nat) : RE := .grp n (.cat [qt, RE.pls nq, qt])

/-- A transformation rule: matcher plus replacement template. -/
abbrev Rule := RE × List Tp

/-- Apply a list of rules in list order, each as a global substitution:
the inner loop of migrateFile. -/
def applyRules (rules : List Rule) (s : List Char) : List Char :=
  rules.foldl (fun acc ru => replaceAll ru.1 ru.2 acc) s

/-! ### PlaywrightMigrator: TRANSFORMATIONS (src/cli.js lines 34-126) -/

/-- TRANSFORMATIONS.selectors of the PlaywrightMigrator. -/
def pSelectors : List Rule := [
  (.cat [RE.str "document.getElementById(", argQ 1, RE.str ")"],
    [.lit "page.locator('#", .cap 1, .lit "')"]),
  (.cat [RE.str "document.querySelector(", argQ 1, RE.str ")"],
    [.lit "page.locator('", .cap 1, .lit "')"]),
  (.cat [RE.str "document.querySelectorAll(", argQ 1, RE.str ")"],
    [.lit "page.locator('", .cap 1, .lit "')"]),
  (.cat [RE.str "document.getElementsByClassName(", argQ 1, RE.str ")"],
    [.lit "page.locator('.", .cap 1, .lit "')"]),
  (.cat [RE.str "$(", argQ 1, RE.str ")"],
    [.lit "page.locator('", .cap 1, .lit "')"]),
  (.cat [RE.str "jQuery(", argQ 1, RE.str ")"],
    [.lit "page.locator('", .cap 1, .lit "')"]),
  (.cat [RE.str "cy.get(", argQ 1, RE.str ")"],
    [.lit "page.locator('", .cap 1, .lit "')"]),
  (.cat [RE.str "cy.contains(", argQ 1, RE.str ")"],
    [.lit "page.getByText('", .cap 1, .lit "')"]),
  (.cat [RE.str "driver.findElement(By.id(", argQ 1, RE.str "))"],
    [.lit "page.locator('#", .cap 1, .lit "')"]),
  (.cat [RE.str "driver.findElement(By.css(", argQ 1, RE.str "))"],
    [.lit "page.locator('", .cap 1, .lit "')"]),
  (.cat [RE.str "driver.findElement(By.xpath(", argQ 1, RE.str "))"],
    [.lit "page.locator('xpath=", .cap 1, .lit "')"]),
  (.cat [RE.str "driver.findElement(By.className(", argQ 1, RE.str "))"],
    [.lit "page.locator('.", .cap 1, .lit "')"]),
  (.cat [RE.str "driver.findElement(By.name(", argQ 1, RE.str "))"],
    [.lit "page.locator('[name=\"", .cap 1, .lit "\"]')"]),
  (.cat [RE.str "driver.findElement(By.linkText(", argQ 1, RE.str "))"],
    [.lit "page.getByRole('link', \x7b name: '", .cap 1, .lit "' \x7d)"]),
  (.cat [RE.str "page.$(", argQ 1, RE.str ")"],
    [.lit "page.locator('", .cap 1, .lit "')"]),
  (.cat [RE.str "page.$$(", argQ 1, RE.str ")"],
    [.lit "page.locator('", .cap 1, .lit "')"]),
  (.cat [RE.str "Selector(", argQ 1, RE.str ")"],
    [.lit "page.locator('", .cap 1, .lit "')"])]

/-- TRANSFORMATIONS.navigation of the PlaywrightMigrator. -/
def pNavigation : List Rule := [
  (.cat [RE.str "cy.visit(", argQ 1, RE.str ")"],
    [.lit "await page.goto('", .cap 1, .lit "')"]),
  (.cat [RE.str "driver.get(", argQ 1, RE.str ")"],
    [.lit "await page.goto('", .cap 1, .lit "')"]),
  (.cat [RE.str "driver.navigate().to(", argQ 1, RE.str ")"],
    [.lit "await page.goto('", .cap 1, .lit "')"]),
  (.cat [RE.str "browser.url(", argQ 1, RE.str ")"],
    [.lit "await page.goto('", .cap 1, .lit "')"]),
  (.cat [RE.str "window.location", wss, .ch '=', wss, qt, .grp 1 (RE.pls nq), qt],
    [.lit "await page.goto('", .cap 1, .lit "')"]),
  (.cat [RE.str "window.location.href", wss, .ch '=', wss, qt, .grp 1 (RE.pls nq), qt],
    [.lit "await page.goto('", .cap 1, .lit "')"]),
  (RE.str "cy.reload()", [.lit "await page.reload()"]),
  (RE.str "driver.navigate().refresh()", [.lit "await page.reload()"])]

/-- TRANSFORMATIONS.actions of the PlaywrightMigrator. -/
def pActions : List Rule := [
  (RE.str ".click()", [.lit ".click()"]),
  (RE.str ".dblclick()", [.lit ".dblclick()"]),
  (.cat [RE.str ".type(", argQ 1, RE.str ")"], [.lit ".fill('", .cap 1, .lit "')"]),
  (.cat [RE.str ".sendKeys(", argQ 1, RE.str ")"], [.lit ".fill('", .cap 1, .lit "')"]),
  (.cat [RE.str "cy.type(", argQ 1, RE.str ")"], [.lit ".fill('", .cap 1, .lit "')"]),
  (RE.str ".clear()", [.lit ".clear()"]),
  (RE.str ".focus()", [.lit ".focus()"]),
  (RE.str ".blur()", [.lit ".blur()"]),
  (RE.str ".hover()", [.lit ".hover()"]),
  (RE.str ".check()", [.lit ".check()"]),
  (RE.str ".uncheck()", [.lit ".uncheck()"]),
  (.cat [RE.str ".select(", argQ 1, RE.str ")"], [.lit ".selectOption('", .cap 1, .lit "')"]),
  (RE.str ".submit()", [.lit ".press('Enter')"])]

/-- TRANSFORMATIONS.waits of the PlaywrightMigrator. -/
def pWaits : List Rule := [
  (.cat [RE.str "cy.wait(", .grp 1 (RE.pls dgt), RE.str ")"],
    [.lit "// Removed cy.wait - Playwright auto-waits"]),
  (.cat [RE.str "driver.sleep(", .grp 1 (RE.pls dgt), RE.str ")"],
    [.lit "// TODO: Replace with assertion\nawait page.waitForTimeout(", .cap 1, .lit ")"]),
  (.cat [RE.str "page.waitForSelector(", argQ 1, RE.str ")"],
    [.lit "page.locator('", .cap 1, .lit "').waitFor()"]),
  (RE.str "page.waitForNavigation()", [.lit "page.waitForLoadState('networkidle')"])]

/-- TRANSFORMATIONS.cypressAssertions of the PlaywrightMigrator. -/
def pCypressAssertions : List Rule := [
  (.cat [RE.str ".should(", qt, RE.str "be.visible", qt, RE.str ")"],
    [.lit ";\nawait expect(element).toBeVisible()"]),
  (.cat [RE.str ".should(", qt, RE.str "not.be.visible", qt, RE.str ")"],
    [.lit ";\nawait expect(element).not.toBeVisible()"]),
  (.cat [RE.str ".should(", qt, RE.str "exist", qt, RE.str ")"],
    [.lit ";\nawait expect(element).toBeAttached()"]),
  (.cat [RE.str ".should(", qt, RE.str "not.exist", qt, RE.str ")"],
    [.lit ";\nawait expect(element).not.toBeAttached()"]),
  (.cat [RE.str ".should(", qt, RE.str "have.text", qt, .ch ',', wss, argQ 1, RE.str ")"],
    [.lit ";\nawait expect(element).toHaveText('", .cap 1, .lit "')"]),
  (.cat [RE.str ".should(", qt, RE.str "contain", qt, .ch ',', wss, argQ 1, RE.str ")"],
    [.lit ";\nawait expect(element).toContainText('", .cap 1, .lit "')"]),
  (.cat [RE.str ".should(", qt, RE.str "have.value", qt, .ch ',', wss, argQ 1, RE.str ")"],
    [.lit ";\nawait expect(element).toHaveValue('", .cap 1, .lit "')"]),
  (.cat [RE.str ".should(", qt, RE.str "be.checked", qt, RE.str ")"],
    [.lit ";\nawait expect(element).toBeChecked()"]),
  (.cat [RE.str ".should(", qt, RE.str "be.disabled", qt, RE.str ")"],
    [.lit ";\nawait expect(element).toBeDisabled()"]),
  (.cat [RE.str ".should(", qt, RE.str "have.length", qt, .ch ',', wss, .grp 1 (RE.pls dgt), RE.str ")"],
    [.lit ";\nawait expect(element).toHaveCount(", .cap 1, .lit ")"])]

/-- TRANSFORMATIONS.assertions of the PlaywrightMigrator. -/
def pAssertions : List Rule := [
  (.cat [RE.str "expect(", .grp 1 (RE.pls np), RE.str ").to.equal(", .grp 2 (RE.pls np), RE.str ")"],
    [.lit "expect(", .cap 1, .lit ").toBe(", .cap 2, .lit ")"]),
  (.cat [RE.str "expect(", .grp 1 (RE.pls np), RE.str ").to.be.true"],
    [.lit "expect(", .cap 1, .lit ").toBe(true)"]),
  (.cat [RE.str "expect(", .grp 1 (RE.pls np), RE.str ").to.be.false"],
    [.lit "expect(", .cap 1, .lit ").toBe(false)"]),
  (.cat [RE.str "expect(", .grp 1 (RE.pls np), RE.str ").to.include(", .grp 2 (RE.pls np), RE.str ")"],
    [.lit "expect(", .cap 1, .lit ").toContain(", .cap 2, .lit ")"]),
  (.cat [RE.str "assert.equal(", .grp 1 (RE.pls nc), .ch ',', wss, .grp 2 (RE.pls np), RE.str ")"],
    [.lit "expect(", .cap 1, .lit ").toBe(", .cap 2, .lit ")"])]

/-- TRANSFORMATIONS.properties of the PlaywrightMigrator. -/
def pProperties : List Rule := [
  (RE.str ".innerText", [.lit ".textContent()"]),
  (RE.str ".innerHTML", [.lit ".innerHTML()"]),
  (.cat [RE.str ".value", .nla (.cat [wss, .cls false ['=', '(']])], [.lit ".inputValue()"]),
  (.cat [RE.str ".getAttribute(", argQ 1, RE.str ")"], [.lit ".getAttribute('", .cap 1, .lit "')"]),
  (.cat [RE.str ".val()", .nla (.cat [wss, .ch '('])], [.lit ".inputValue()"]),
  (.cat [RE.str ".text()", .nla (.cat [wss, .ch '('])], [.lit ".textContent()"])]

/-- TRANSFORMATIONS.imports of the PlaywrightMigrator. -/
def pImports : List Rule := [
  (.cat [RE.str "const", wss, .ch '\x7b', .star (.cls true ['\x7d']), .ch '\x7d', wss, .ch '=',
      wss, RE.str "require(", qt, RE.str "selenium-webdriver", qt, RE.str ")", .opt (.ch ';')],
    [.lit ""]),
  (.cat [RE.str "import", wss, .ch '\x7b', .star (.cls true ['\x7d']), .ch '\x7d', wss,
      RE.str "from", wss, qt, RE.str "selenium-webdriver", qt, .opt (.ch ';')],
    [.lit ""]),
  (.cat [RE.str "const", RE.pls wsp, RE.str "puppeteer", wss, .ch '=', wss,
      RE.str "require(", qt, RE.str "puppeteer", qt, RE.str ")", .opt (.ch ';')],
    [.lit ""]),
  (.cat [RE.str "import", RE.pls wsp, RE.str "puppeteer", RE.pls wsp, RE.str "from", wss,
      qt, RE.str "puppeteer", qt, .opt (.ch ';')],
    [.lit ""]),
  (.cat [RE.str "///", wss, RE.str "<reference", RE.pls wsp, RE.str "types=", qt,
      RE.str "cypress", qt, wss, RE.str "/>"],
    [.lit ""])]

/-- The PlaywrightMigrator catalog in object declaration order, as iterated
by Object.values in migrateFile. -/
def pCats : List (List Rule) :=
  [pSelectors, pNavigation, pActions, pWaits, pCypressAssertions, pAssertions, pProperties, pImports]

/-- The transformation loop of PlaywrightMigrator.migrateFile: for each
category in declaration order, for each rule in list order, a global
substitution. -/
def pTransforms (s : List Char) : List Char :=
  pCats.foldl (fun acc rules => applyRules rules acc) s

/-! ### PlaywrightMigrator.migrateFile: structure conversion, import,
cleanup (src/cli.js lines 273-312) -/

/-- Pattern of the describe-header conversion in migrateFile. -/
def pDescRe : RE :=
  .cat [RE.str "describe", wss, .ch '(', wss, qstr 1, wss, .ch ',', wss,
    .alt (.cat [RE.str "function", wss, RE.str "()"]) (.cat [RE.str "()", wss, RE.str "=>"]),
    wss, .ch '\x7b']

/-- Replacement of the describe-header conversion. -/
def pDescTm : List Tp := [.lit "test.describe(", .cap 1, .lit ", () => \x7b"]

/-- Pattern of the it-header conversion in migrateFile. -/
def pItRe : RE :=
  .cat [.wb, RE.str "it", wss, .ch '(', wss, qstr 1, wss, .ch ',', wss,
    .opt (.cat [RE.str "async", wss]), .opt (.ch '('), .star np, .opt (.ch ')'),
    wss, RE.str "=>", wss, .ch '\x7b']

/-- Pattern of the test-header conversion in migrateFile. -/
def pTestRe : RE :=
  .cat [.wb, RE.str "test", wss, .ch '(', wss, qstr 1, wss, .ch ',', wss,
    .opt (.cat [RE.str "async", wss]), .opt (.ch '('), .star np, .opt (.ch ')'),
    wss, RE.str "=>", wss, .ch '\x7b']

/-- Replacement of the it-header and test-header conversions. -/
def pItTm : List Tp := [.lit "test(", .cap 1, .lit ", async (\x7b page \x7d) => \x7b"]

/-- The three structure-conversion substitutions of migrateFile, in order. -/
def pStructure (s : List Char) : List Char :=
  applyRules [(pDescRe, pDescTm), (pItRe, pItTm), (pTestRe, pItTm)] s

/-- The substring whose presence suppresses adding the import. -/
def impNeedle : List Char := "from '@playwright/test'".data

/-- The import line prepended when the needle is absent. -/
def impHeader : List Char := "import \x7b test, expect \x7d from '@playwright/test';\n\n".data

/-- The import-normalization step of migrateFile. -/
def pAddImport (s : List Char) : List Char :=
  if hasSub impNeedle s then s else impHeader ++ s

/-- The three await-insertion fixes of migrateFile, with negative
lookbehind, in order. -/
def pAwaitFix : List Rule := [
  (.cat [.nlb (.cat [RE.str "await", wsp]), .grp 1 (RE.str "page.goto(")],
    [.lit "await ", .cap 1]),
  (.cat [.nlb (.cat [RE.str "await", wsp]),
      .grp 1 (.cat [RE.str "page.locator(", RE.pls np, RE.str ").click("])],
    [.lit "await ", .cap 1]),
  (.cat [.nlb (.cat [RE.str "await", wsp]),
      .grp 1 (.cat [RE.str "page.locator(", RE.pls np, RE.str ").fill("])],
    [.lit "await ", .cap 1])]

/-- Pattern collapsing a duplicated await: one global pass. -/
def awaitAwaitRe : RE := .cat [RE.str "await", RE.pls wsp, RE.str "await"]

/-- Pattern collapsing runs of three or more newlines. -/
def nl3Re : RE := .cat [.ch '\n', .ch '\n', .ch '\n', .star (.ch '\n')]

/-- The cleanup tail of migrateFile: await fixes, duplicate-await collapse,
blank-line collapse, in the order of the source. -/
def pCleanup (s : List Char) : List Char :=
  replaceAll nl3Re [.lit "\n\n"]
    (replaceAll awaitAwaitRe [.lit "await"] (applyRules pAwaitFix s))

/-- The content transformation of PlaywrightMigrator.migrateFile: catalog
categories in declaration order, then structure conversion, then import
normalization, then cleanup. The framework detection at the top of
migrateFile stores a value that is never used afterwards and is omitted. -/
def rewriteP (s : List Char) : List Char :=
  pCleanup (pAddImport (pStructure (pTransforms s)))

/-- The same rules as rewriteP but with categories ordered as the claim
states: selectors, properties, actions, navigation, waits, assertions
(cypress first), then structural wrapping and import normalization (the
imports category directly before the prepended import), cleanup unchanged.
This definition follows the words of the claim and exists to be compared
with rewriteP. -/
def rewriteClaimP (s : List Char) : List Char :=
  pCleanup (pAddImport (applyRules pImports (pStructure
    (applyRules pAssertions (applyRules pCypressAssertions (applyRules pWaits
      (applyRules pNavigation (applyRules pActions (applyRules pProperties
        (applyRules pSelectors s))))))))))

/-! ### BrowserJSMigrator: TRANSFORMATIONS (src/cli.js lines 471-534) -/

/-- TRANSFORMATIONS.selectors of the BrowserJSMigrator. -/
def bSelectors : List Rule := [
  (.cat [RE.str "document.getElementById(", argQ 1, RE.str ")"],
    [.lit "page.locator('#", .cap 1, .lit "')"]),
  (.cat [RE.str "document.querySelector(", argQ 1, RE.str ")"],
    [.lit "page.locator('", .cap 1, .lit "')"]),
  (.cat [RE.str "document.querySelectorAll(", argQ 1, RE.str ")"],
    [.lit "page.locator('", .cap 1, .lit "')"]),
  (.cat [RE.str "document.getElementsByClassName(", argQ 1, RE.str ")"],
    [.lit "page.locator('.", .cap 1, .lit "')"]),
  (.cat [RE.str "document.getElementsByTagName(", argQ 1, RE.str ")"],
    [.lit "page.locator('", .cap 1, .lit "')"]),
  (.cat [RE.str "document.getElementsByName(", argQ 1, RE.str ")"],
    [.lit "page.locator('[name=\"", .cap 1, .lit "\"]')"]),
  (.cat [RE.str "$(", argQ 1, RE.str ")"],
    [.lit "page.locator('", .cap 1, .lit "')"]),
  (.cat [RE.str "jQuery(", argQ 1, RE.str ")"],
    [.lit "page.locator('", .cap 1, .lit "')"])]

/-- TRANSFORMATIONS.properties of the BrowserJSMigrator. -/
def bProperties : List Rule := [
  (.cat [RE.str ".innerText", .nla (.cat [wss, .ch '='])], [.lit ".textContent()"]),
  (.cat [RE.str ".textContent", .nla (.cat [wss, .ch '='])], [.lit ".textContent()"]),
  (.cat [RE.str ".innerHTML", .nla (.cat [wss, .ch '='])], [.lit ".innerHTML()"]),
  (.cat [RE.str ".value", .nla (.cat [wss, .ch '='])], [.lit ".inputValue()"]),
  (.cat [RE.str ".getAttribute(", argQ 1, RE.str ")"], [.lit ".getAttribute('", .cap 1, .lit "')"]),
  (.cat [RE.str ".val()", .nla (.cat [wss, .ch '('])], [.lit ".inputValue()"]),
  (.cat [RE.str ".text()", .nla (.cat [wss, .ch '('])], [.lit ".textContent()"]),
  (.cat [RE.str ".html()", .nla (.cat [wss, .ch '('])], [.lit ".innerHTML()"])]

/-- TRANSFORMATIONS.actions of the BrowserJSMigrator. -/
def bActions : List Rule := [
  (RE.str ".click()", [.lit ".click()"]),
  (RE.str ".focus()", [.lit ".focus()"]),
  (RE.str ".blur()", [.lit ".blur()"]),
  (RE.str ".submit()", [.lit ".press('Enter')"]),
  (.cat [RE.str ".scrollIntoView(", .star np, RE.str ")"], [.lit ".scrollIntoViewIfNeeded()"])]

/-- TRANSFORMATIONS.mutations of the BrowserJSMigrator. -/
def bMutations : List Rule := [
  (.cat [RE.str ".value", wss, .ch '=', wss, qt, .grp 1 (RE.pls nq), qt],
    [.lit ".fill('", .cap 1, .lit "')"]),
  (.cat [RE.str ".val(", argQ 1, RE.str ")"], [.lit ".fill('", .cap 1, .lit "')"])]

/-- TRANSFORMATIONS.navigation of the BrowserJSMigrator. -/
def bNavigation : List Rule := [
  (.cat [RE.str "window.location", wss, .ch '=', wss, qt, .grp 1 (RE.pls nq), qt],
    [.lit "await page.goto('", .cap 1, .lit "')"]),
  (.cat [RE.str "window.location.href", wss, .ch '=', wss, qt, .grp 1 (RE.pls nq), qt],
    [.lit "await page.goto('", .cap 1, .lit "')"]),
  (.cat [RE.str "window.location.assign(", argQ 1, RE.str ")"],
    [.lit "await page.goto('", .cap 1, .lit "')"]),
  (RE.str "window.location.reload()", [.lit "await page.reload()"]),
  (RE.str "history.back()", [.lit "await page.goBack()"]),
  (RE.str "history.forward()", [.lit "await page.goForward()"])]

/-- TRANSFORMATIONS.waits of the BrowserJSMigrator. -/
def bWaits : List Rule := [
  (.cat [RE.str "setTimeout", wss, .ch '(', RE.pls nc, .ch ',', wss, .grp 1 (RE.pls dgt),
      wss, .ch ')'],
    [.lit "// TODO: Replace with proper waiting\nawait page.waitForTimeout(", .cap 1, .lit ")"]),
  (.cat [RE.str "await", RE.pls wsp, RE.str "sleep", wss, .ch '(', wss, .grp 1 (RE.pls dgt),
      wss, .ch ')'],
    [.lit "// TODO: Replace with proper waiting\nawait page.waitForTimeout(", .cap 1, .lit ")"])]

/-- TRANSFORMATIONS.storage of the BrowserJSMigrator. -/
def bStorage : List Rule := [
  (.cat [RE.str "localStorage.setItem(", argQ 1, .ch ',', wss, .grp 2 (RE.pls np), RE.str ")"],
    [.lit "await page.evaluate(() => localStorage.setItem('", .cap 1, .lit "', ", .cap 2, .lit "))"]),
  (.cat [RE.str "localStorage.getItem(", argQ 1, RE.str ")"],
    [.lit "await page.evaluate(() => localStorage.getItem('", .cap 1, .lit "'))"]),
  (.cat [RE.str "localStorage.removeItem(", argQ 1, RE.str ")"],
    [.lit "await page.evaluate(() => localStorage.removeItem('", .cap 1, .lit "'))"]),
  (RE.str "localStorage.clear()",
    [.lit "await page.evaluate(() => localStorage.clear())"]),
  (.cat [RE.str "sessionStorage.setItem(", argQ 1, .ch ',', wss, .grp 2 (RE.pls np), RE.str ")"],
    [.lit "await page.evaluate(() => sessionStorage.setItem('", .cap 1, .lit "', ", .cap 2, .lit "))"]),
  (.cat [RE.str "sessionStorage.getItem(", argQ 1, RE.str ")"],
    [.lit "await page.evaluate(() => sessionStorage.getItem('", .cap 1, .lit "'))"])]

/-- TRANSFORMATIONS.dialogs of the BrowserJSMigrator. -/
def bDialogs : List Rule := [
  (.cat [RE.str "alert(", argQ 1, RE.str ")"],
    [.lit "// Dialog: '", .cap 1, .lit "'\npage.once('dialog', d => d.accept())"]),
  (.cat [RE.str "confirm(", argQ 1, RE.str ")"],
    [.lit "// Confirm: '", .cap 1, .lit "'\npage.once('dialog', d => d.accept())"])]

/-- The BrowserJSMigrator catalog in object declaration order. -/
def bCats : List (List Rule) :=
  [bSelectors, bProperties, bActions, bMutations, bNavigation, bWaits, bStorage, bDialogs]

/-- The transformation loop of BrowserJSMigrator.migrate. -/
def bTransforms (s : List Char) : List Char :=
  bCats.foldl (fun acc rules => applyRules rules acc) s

/-! ### BrowserJSMigrator: detectPatterns (src/cli.js lines 587-601) -/

/-- The pattern tests of detectPatterns, in source order, each paired with
the name pushed when the test succeeds. -/
def bDetectRules : List (RE × String) := [
  (RE.str "document.getElementById", "getElementById"),
  (RE.str "document.querySelector", "querySelector"),
  (RE.str "document.querySelectorAll", "querySelectorAll"),
  (.alt (.cat [RE.str "$(", qt]) (.cat [RE.str "jQuery(", qt]), "jQuery"),
  (.alt (RE.str ".innerText") (.alt (RE.str ".innerHTML") (RE.str ".textContent")),
    "DOM-properties"),
  (.alt (RE.str ".click()") (.alt (RE.str ".focus()") (RE.str ".blur()")), "DOM-actions"),
  (RE.str "window.location", "navigation"),
  (.alt (RE.str "localStorage.") (RE.str "sessionStorage."), "storage"),
  (.alt (RE.str "setTimeout") (RE.str "setInterval"), "timers"),
  (RE.str "addEventListener", "events"),
  (.alt (RE.str "alert(") (.alt (RE.str "confirm(") (RE.str "prompt(")), "dialogs")]

/-- BrowserJSMigrator.detectPatterns: the list of pattern names whose test
matches the content, in source order. -/
def detectPatterns (c : List Char) : List String :=
  (bDetectRules.filter (fun ru => hasMatch ru.1 c)).map (fun ru => ru.2)

/-! ### BrowserJSMigrator.wrapTest (src/cli.js lines 665-684) -/

/-- The last path component, after the final slash. -/
def lastComp (p : List Char) : List Char :=
  (p.reverse.takeWhile (fun c => !(c == '/'))).reverse

/-- Does s end with the suffix suf? -/
def endsL (suf s : List Char) : Bool := startsL suf.reverse s.reverse

/-- path.basename(p, the js extension): the last component, with a trailing
js extension stripped unless the component is the extension itself. -/
def baseNameJs (p : List Char) : List Char :=
  let c := lastComp p
  if endsL ".js".data c && !(c == ".js".data) then c.take (c.length - 3) else c

/-- The structure test of wrapTest: a describe, it or test call header. -/
def bStructRe : RE :=
  .alt (.cat [RE.str "describe", wss, .ch '('])
    (.alt (.cat [RE.str "it", wss, .ch '(']) (.cat [RE.str "test", wss, .ch '(']))

/-- Pattern of the describe conversion inside wrapTest. -/
def bDescRe : RE := .cat [RE.str "describe", wss, .ch '(', wss, qstr 1]

/-- Replacement of the describe conversion inside wrapTest. -/
def bDescTm : List Tp := [.lit "test.describe(", .cap 1]

/-- Pattern of the it conversion inside wrapTest. -/
def bItRe : RE :=
  .cat [.wb, RE.str "it", wss, .ch '(', wss, qstr 1, wss, .ch ',', wss,
    .opt (.cat [RE.str "async", wss]), .ch '(', .star np, .ch ')', wss, RE.str "=>"]

/-- Replacement of the it conversion inside wrapTest. -/
def bItTm : List Tp := [.lit "test(", .cap 1, .lit ", async (\x7b page \x7d) =>"]

/-- String.split on the newline character. -/
def splitNl : List Char → List (List Char)
  | [] => [[]]
  | c :: rest =>
      if c = '\n' then [] :: splitNl rest
      else
        match splitNl rest with
        | l :: ls => (c :: l) :: ls
        | [] => [[c]]

/-- Indent every line by four spaces and rejoin, as wrapTest does. -/
def indent4 (c : List Char) : List Char :=
  List.intercalate "\n".data ((splitNl c).map (fun l => "    ".data ++ l))

/-- BrowserJSMigrator.wrapTest: keep content that already imports the
target module; convert describe and it headers when a structure marker is
present; otherwise wrap the whole content in a synthetic describe block
with a single test named main, titled by the base name with dots and
hyphens replaced by spaces. -/
def wrapTest (content filePath : List Char) : List Char :=
  let name := (baseNameJs filePath).map (fun c => if c = '.' ∨ c = '-' then ' ' else c)
  if hasSub impNeedle content then content
  else if hasMatch bStructRe content then
    impHeader ++ applyRules [(bDescRe, bDescTm), (bItRe, bItTm)] content
  else
    impHeader ++ "test.describe('".data ++ name ++ "', () => \x7b\n".data ++
      "  test('main', async (\x7b page \x7d) => \x7b\n".data ++
      indent4 content ++ "\n  \x7d);\n\x7d);\n".data

/-- The cleanup of BrowserJSMigrator.migrate: duplicate-await collapse then
blank-line collapse. -/
def bCleanup (s : List Char) : List Char :=
  replaceAll nl3Re [.lit "\n\n"] (replaceAll awaitAwaitRe [.lit "await"] s)

/-- The per-file content pipeline of BrowserJSMigrator.migrate:
transformations, wrapTest, cleanup. -/
def bRewrite (filePath content : List Char) : List Char :=
  bCleanup (wrapTest (bTransforms content) filePath)

/-! ### File enumeration, output paths and filesystem effects.

Files are identified by their repository-relative paths (the CLI works with
absolute paths and takes path.relative against the repository root; the
embedding works with the relative paths directly). path.join of the
non-empty output directory and a relative path inserts one slash. -/

/-- path.join for a non-empty directory and a relative path. -/
def pJoin (a b : List Char) : List Char := a ++ '/' :: b

/-- path.dirname: everything before the last slash, or a dot. -/
def dirnameL (p : List Char) : List Char :=
  let r := p.reverse.dropWhile (fun c => !(c == '/'))
  if r.isEmpty then ".".data else (r.drop 1).reverse

/-- Extension pattern of PlaywrightMigrator.migrateFile: a cy, spec or test
marker plus js or ts extension, anchored at the end. -/
def pExtRe : RE :=
  .cat [.ch '.', .grp 1 (.alt (RE.str "cy") (.alt (RE.str "spec") (RE.str "test"))),
    .ch '.', .grp 2 (.alt (RE.str "js") (RE.str "ts")), .eos]

/-- Output name of a file in PlaywrightMigrator.migrateFile. -/
def pOutRel (rel : List Char) : List Char := replaceAll pExtRe [.lit ".spec.ts"] rel

/-- Extension pattern of BrowserJSMigrator.migrate: a js extension anchored
at the end. -/
def bExtRe : RE := .cat [RE.str ".js", .eos]

/-- Output name of a file in BrowserJSMigrator.migrate. -/
def bOutRel (rel : List Char) : List Char := replaceAll bExtRe [.lit ".spec.ts"] rel

/-- A filesystem effect: directory creation or a file write with content. -/
inductive FsOp where
  | mkdir (p : List Char)
  | fwrite (p : List Char) (c : List Char)
deriving DecidableEq

/-- Is the effect a file write? -/
def FsOp.isW : FsOp → Bool
  | .fwrite _ _ => true
  | .mkdir _ => false

/-- The path of the effect. -/
def FsOp.path : FsOp → List Char
  | .fwrite p _ => p
  | .mkdir p => p

instance : Repr FsOp where
  reprPrec op _ :=
    match op with
    | .mkdir p => repr (("mkdir", String.mk p))
    | .fwrite p _ => repr (("fwrite", String.mk p))

/-! ### PlaywrightMigrator.migrate (src/cli.js lines 251-312) -/

/-- The report accumulated by PlaywrightMigrator.migrate, together with the
filesystem effects performed: migrated counts successful files, errors
collects (file, message) for files whose processing threw, caught per file. -/
structure PRun where
  migrated : Nat
  errors : List (List Char × List Char)
  ops : List FsOp
deriving Repr

/-- The effects of PlaywrightMigrator.migrateFile for one successfully read
file: create the directory of the output path and write the rewritten
content, both suppressed by dryRun. -/
def pMigrateFile (dryRun : Bool) (outDir f content : List Char) : List FsOp :=
  let outPath := pJoin outDir (pOutRel f)
  if dryRun then [] else [.mkdir (dirnameL outPath), .fwrite outPath (rewriteP content)]

/-- The per-file loop of PlaywrightMigrator.migrate: a file whose read
throws is recorded in the error list and the loop continues. The
filesystem is a function from path to content or error message. -/
def pLoop (dryRun : Bool) (outDir : List Char)
    (fs : List Char → Except (List Char) (List Char)) :
    List (List Char) → PRun
  | [] => ⟨0, [], []⟩
  | f :: rest =>
      let r := pLoop dryRun outDir fs rest
      match fs f with
      | .error m => { r with errors := (f, m) :: r.errors }
      | .ok c =>
          { migrated := r.migrated + 1, errors := r.errors,
            ops := pMigrateFile dryRun outDir f c ++ r.ops }

/-- PlaywrightMigrator.migrate: create the output directory unless dryRun,
then process every file in order. -/
def pMigrate (dryRun : Bool) (outDir : List Char)
    (fs : List Char → Except (List Char) (List Char))
    (files : List (List Char)) : PRun :=
  let r := pLoop dryRun outDir fs files
  { r with ops := (if dryRun then [] else [.mkdir outDir]) ++ r.ops }

/-! ### BrowserJSMigrator.migrate (src/cli.js lines 626-663) -/

/-- The report of BrowserJSMigrator.migrate with its filesystem effects. -/
structure BRun where
  migrated : Nat
  skipped : Nat
  ops : List FsOp
deriving Repr

/-- The effects of one migrated file in BrowserJSMigrator.migrate. -/
def bFileOps (dryRun : Bool) (outDir f content : List Char) : List FsOp :=
  let outPath := pJoin outDir (bOutRel f)
  if dryRun then [] else [.mkdir (dirnameL outPath), .fwrite outPath (bRewrite f content)]

/-- The per-file loop of BrowserJSMigrator.migrate: the read is not guarded,
so a throwing file propagates out of the loop (the Except error) and the
remaining files are not processed; a file with no detected patterns is
counted as skipped and produces no effects. -/
def bLoop (dryRun : Bool) (outDir : List Char)
    (fs : List Char → Except (List Char) (List Char)) :
    List (List Char) → Except (List Char) BRun
  | [] => .ok ⟨0, 0, []⟩
  | f :: rest =>
      match fs f with
      | .error m => .error m
      | .ok c =>
          if detectPatterns c = [] then
            (bLoop dryRun outDir fs rest).map (fun r => { r with skipped := r.skipped + 1 })
          else
            (bLoop dryRun outDir fs rest).map (fun r =>
              { migrated := r.migrated + 1, skipped := r.skipped,
                ops := bFileOps dryRun outDir f c ++ r.ops })

/-- BrowserJSMigrator.migrate: create the output directory unless dryRun,
then process every file in order, aborting on the first throwing file. -/
def bMigrate (dryRun : Bool) (outDir : List Char)
    (fs : List Char → Except (List Char) (List Char))
    (files : List (List Char)) : Except (List Char) BRun :=
  (bLoop dryRun outDir fs files).map (fun r =>
    { r with ops := (if dryRun then [] else [.mkdir outDir]) ++ r.ops })

/-- A filesystem in which every read succeeds. -/
def okFs (g : List Char → List Char) : List Char → Except (List Char) (List Char) :=
  fun p => .ok (g p)

/-- The write effects of bMigrate, empty when the run aborted. -/
def bOpsE : Except (List Char) BRun → List FsOp
  | .ok r => r.ops
  | .error _ => []

/-- The skipped count reported by bMigrate, zero when the run aborted. -/
def bSkE : Except (List Char) BRun → Nat
  | .ok r => r.skipped
  | .error _ => 0

/-- The migrated count reported by bMigrate, zero when the run aborted. -/
def bMgE : Except (List Char) BRun → Nat
  | .ok r => r.migrated
  | .error _ => 0

/-! ### The write effects of analyze and setup.

Only the guard structure matters to the claims; the serialized analysis,
configuration and package contents are not modelled, the paths written are.
Every write in analyze (src/cli.js lines 170-172 and 579-581) and in
setupProject and setup (lines 351-354 and 712-715) sits under the same
dryRun guard as in the source. -/

/-- Paths written by PlaywrightMigrator.analyze. -/
def pAnalyzeWritePaths (dryRun : Bool) : List (List Char) :=
  if dryRun then [] else ["migration-analysis.json".data]

/-- Paths written by PlaywrightMigrator.setupProject. -/
def pSetupWritePaths (dryRun : Bool) : List (List Char) :=
  if dryRun then [] else ["playwright.config.ts".data, "package.json".data]

/-- Paths written by BrowserJSMigrator.analyze. -/
def bAnalyzeWritePaths (dryRun : Bool) : List (List Char) :=
  if dryRun then [] else ["migration-analysis.json".data]

/-- Paths written by BrowserJSMigrator.setup. -/
def bSetupWritePaths (dryRun : Bool) : List (List Char) :=
  if dryRun then [] else ["playwright.config.ts".data, "package.json".data]

/-! ### Step definitions (src/common.steps.ts) -/

/-- The phrases bound by the step-definition file, in source order: the
Given, When and Then bindings of src/common.steps.ts. -/
def baselinePhrases : List String := [
  "I am on the application page",
  "I navigate to {string}",
  "I am on the {string} page",
  "I click on {string}",
  "I enter {string} in the {string} field",
  "I clear the {string} field",
  "I check the {string} checkbox",
  "I select {string} from {string}",
  "I hover over {string}",
  "I press {string}",
  "I should see {string}",
  "I should not see {string}",
  "the element {string} should be visible",
  "the element {string} should contain {string}",
  "the input {string} should have value {string}",
  "the URL should be {string}",
  "the URL should contain {string}",
  "the page title should be {string}"]

/-- Modelled from the spec: the Step Definition Renderer of section 4.6 is
not part of src (only the baseline step file src/common.steps.ts is). It
maps every unique phrase of the frozen run vocabulary, plus the fixed
baseline set, to one callable binding per phrase, with set semantics. -/
def renderPhrases (vocab : List String) : List String :=
  (baselinePhrases ++ vocab).dedup

/-- Modelled from the spec: the process-wide StepVocabulary accumulated
across the files of a run (section 3), given per file as the list of
phrases that file synthesized. -/
def runVocabulary (perFile : List (List String)) : List String :=
  perFile.flatten

/-- Follows the words of the claim for comparison with wrapTest: title-case
the first letter of every space-separated word. -/
def tcGo : Bool → List Char → List Char
  | _, [] => []
  | capNext, c :: rest =>
      if c = ' ' then ' ' :: tcGo true rest
      else (if capNext then c.toUpper else c) :: tcGo false rest

/-- Follows the words of the claim for comparison with wrapTest: the base
name with each of the delimiter characters dot, hyphen and underscore
replaced by a space, then title-cased. -/
def specTitle (p : List Char) : List Char :=
  tcGo true ((baseNameJs p).map (fun c => if c = '.' ∨ c = '-' ∨ c = '_' then ' ' else c))

/-! ### Helper lemmas -/

theorem startsL_app_both (x y z : List Char) : startsL (x ++ y) (x ++ z) = startsL y z := by
  induction x with
  | nil => rfl
  | cons c cs ih => simp [startsL, ih]

theorem startsL_self_app (p t : List Char) : startsL p (p ++ t) = true := by
  induction p with
  | nil => rfl
  | cons c cs ih => simp [startsL, ih]

theorem startsL_ext {n s : List Char} (t : List Char) (h : startsL n s = true) :
    startsL n (s ++ t) = true := by
  induction n generalizing s with
  | nil => rfl
  | cons c cs ih =>
    cases s with
    | nil => simp [startsL] at h
    | cons b bs =>
      simp only [startsL, Bool.and_eq_true] at h
      simp [startsL, h.1, ih h.2]

theorem hasSub_of_startsL {n s : List Char} (h : startsL n s = true) : hasSub n s = true := by
  cases s with
  | nil =>
    cases n with
    | nil => rfl
    | cons c cs => simp [startsL] at h
  | cons c cs => simp [hasSub, h]

theorem hasSub_app_r {n s : List Char} (t : List Char) (h : hasSub n s = true) :
    hasSub n (s ++ t) = true := by
  induction s with
  | nil =>
    cases n with
    | nil =>
      cases t with
      | nil => rfl
      | cons c cs => simp [hasSub, startsL]
    | cons c cs => simp [hasSub, startsL] at h
  | cons c cs ih =>
    simp only [hasSub, Bool.or_eq_true] at h
    simp only [List.cons_append, hasSub, Bool.or_eq_true]
    rcases h with h | h
    · exact Or.inl (by simpa using startsL_ext t h)
    · exact Or.inr (ih h)

theorem hasSub_app_l {n t : List Char} (s : List Char) (h : hasSub n t = true) :
    hasSub n (s ++ t) = true := by
  induction s with
  | nil => simpa using h
  | cons c cs ih => simp [hasSub, ih]

theorem pAddImport_idem (s : List Char) : pAddImport (pAddImport s) = pAddImport s := by
  by_cases h : hasSub impNeedle s = true
  · simp [pAddImport, h]
  · have hh : hasSub impNeedle impHeader = true := by decide
    have : hasSub impNeedle (impHeader ++ s) = true := hasSub_app_r s hh
    simp [pAddImport, h, this]

theorem pLoop_count (d : Bool) (o : List Char)
    (fs : List Char → Except (List Char) (List Char)) (files : List (List Char)) :
    (pLoop d o fs files).migrated + (pLoop d o fs files).errors.length = files.length := by
  induction files with
  | nil => rfl
  | cons f rest ih =>
    simp only [pLoop]
    cases fs f with
    | error m => simp only [List.length_cons]; omega
    | ok c => simp only [List.length_cons]; omega

theorem pLoop_err_mem (d : Bool) (o : List Char)
    (fs : List Char → Except (List Char) (List Char)) (files : List (List Char))
    (f m : List Char) (hf : f ∈ files) (he : fs f = .error m) :
    (f, m) ∈ (pLoop d o fs files).errors := by
  induction files with
  | nil => cases hf
  | cons g rest ih =>
    rcases List.mem_cons.mp hf with h | h
    · subst h
      simp only [pLoop, he]
      exact List.mem_cons_self _ _
    · simp only [pLoop]
      cases hg : fs g with
      | error m' => exact List.mem_cons_of_mem _ (ih h)
      | ok c => exact ih h

theorem pLoop_dry_ops (o : List Char)
    (fs : List Char → Except (List Char) (List Char)) (files : List (List Char)) :
    (pLoop true o fs files).ops = [] := by
  induction files with
  | nil => rfl
  | cons f rest ih =>
    simp only [pLoop]
    cases fs f with
    | error m => exact ih
    | ok c => simp [pMigrateFile, ih]

theorem pLoop_writes_count (o : List Char)
    (fs : List Char → Except (List Char) (List Char)) (files : List (List Char)) :
    ((pLoop false o fs files).ops.filter FsOp.isW).length = (pLoop false o fs files).migrated := by
  induction files with
  | nil => rfl
  | cons f rest ih =>
    simp only [pLoop]
    cases fs f with
    | error m => exact ih
    | ok c => simp [pMigrateFile, List.filter_append, FsOp.isW, ih]

theorem pLoop_writes_prefixed (o : List Char)
    (fs : List Char → Except (List Char) (List Char)) (files : List (List Char))
    (op : FsOp) (hmem : op ∈ (pLoop false o fs files).ops) (hw : op.isW = true) :
    startsL (o ++ ['/']) op.path = true := by
  induction files with
  | nil => cases hmem
  | cons f rest ih =>
    simp only [pLoop] at hmem
    cases hf : fs f with
    | error m => rw [hf] at hmem; exact ih hmem
    | ok c =>
      rw [hf] at hmem
      simp only [pMigrateFile, if_neg Bool.false_ne_true, List.cons_append, List.mem_cons,
        List.nil_append] at hmem
      rcases hmem with h | h | h
      · subst h; simp [FsOp.isW] at hw
      · subst h
        simp only [FsOp.path, pJoin]
        have : o ++ '/' :: pOutRel f = (o ++ ['/']) ++ pOutRel f := by simp
        rw [this]
        exact startsL_self_app _ _
      · exact ih h

/-- Proof-side characterization of bLoop over a filesystem whose reads all
succeed; proved equal to bLoop below. -/
def bPureRun (d : Bool) (o : List Char) (g : List Char → List Char) :
    List (List Char) → BRun
  | [] => ⟨0, 0, []⟩
  | f :: rest =>
      let r := bPureRun d o g rest
      if detectPatterns (g f) = [] then { r with skipped := r.skipped + 1 }
      else { migrated := r.migrated + 1, skipped := r.skipped,
             ops := bFileOps d o f (g f) ++ r.ops }

theorem bLoop_okFs (d : Bool) (o : List Char) (g : List Char → List Char)
    (files : List (List Char)) :
    bLoop d o (okFs g) files = .ok (bPureRun d o g files) := by
  induction files with
  | nil => rfl
  | cons f rest ih =>
    simp only [bLoop, okFs, bPureRun, ih]
    by_cases h : detectPatterns (g f) = [] <;> simp [h, Except.map]

theorem bPureRun_sk (d : Bool) (o : List Char) (g : List Char → List Char)
    (files : List (List Char)) :
    (bPureRun d o g files).skipped =
      (files.filter (fun f => decide (detectPatterns (g f) = []))).length := by
  induction files with
  | nil => rfl
  | cons f rest ih =>
    simp only [bPureRun, List.filter_cons]
    by_cases h : detectPatterns (g f) = [] <;> simp [h, ih]

theorem bPureRun_mg (d : Bool) (o : List Char) (g : List Char → List Char)
    (files : List (List Char)) :
    (bPureRun d o g files).migrated =
      (files.filter (fun f => !decide (detectPatterns (g f) = []))).length := by
  induction files with
  | nil => rfl
  | cons f rest ih =>
    simp only [bPureRun, List.filter_cons]
    by_cases h : detectPatterns (g f) = [] <;> simp [h, ih]

theorem bPureRun_writes (o : List Char) (g : List Char → List Char)
    (files : List (List Char)) :
    (((bPureRun false o g files).ops.filter FsOp.isW).map FsOp.path) =
      (files.filter (fun f => !decide (detectPatterns (g f) = []))).map
        (fun f => pJoin o (bOutRel f)) := by
  induction files with
  | nil => rfl
  | cons f rest ih =>
    simp only [bPureRun, List.filter_cons]
    by_cases h : detectPatterns (g f) = []
    · simp [h, ih]
    · simp [h, bFileOps, List.filter_append, FsOp.isW, FsOp.path, ih]

theorem bPureRun_dry_ops (o : List Char) (g : List Char → List Char)
    (files : List (List Char)) :
    (bPureRun true o g files).ops = [] := by
  induction files with
  | nil => rfl
  | cons f rest ih =>
    simp only [bPureRun]
    by_cases h : detectPatterns (g f) = [] <;> simp [h, bFileOps, ih]

/-! ### Claims -/

/-- C1 (amended): rewrite applies its substitution categories in the order
in which the catalog declares them, with rules inside a category applied in
list order as global all-occurrences substitutions. For the Playwright
migrator that order is selectors, navigation, actions, waits, cypress
assertions, generic assertions, properties, import removal, followed by
structural wrapping, import prepending and cleanup; for the browser-JS
migrator it is selectors, properties, actions, mutations, navigation,
waits, storage, dialogs. -/
theorem C1_fixed_category_order (s : List Char) :
    rewriteP s =
      pCleanup (pAddImport (pStructure
        (applyRules pImports (applyRules pProperties (applyRules pAssertions
          (applyRules pCypressAssertions (applyRules pWaits (applyRules pActions
            (applyRules pNavigation (applyRules pSelectors s)))))))))) ∧
    bTransforms s =
      applyRules bDialogs (applyRules bStorage (applyRules bWaits (applyRules bNavigation
        (applyRules bMutations (applyRules bActions (applyRules bProperties
          (applyRules bSelectors s))))))) := by
  constructor <;>
    simp only [rewriteP, pTransforms, bTransforms, pCats, bCats, List.foldl_cons, List.foldl_nil]

/-- C1 (amended, witness): the category order of the theorem evaluated on a
concrete input. -/
theorem C1_fixed_category_order_witness :
    rewriteP "a".data =
      pCleanup (pAddImport (pStructure
        (applyRules pImports (applyRules pProperties (applyRules pAssertions
          (applyRules pCypressAssertions (applyRules pWaits (applyRules pActions
            (applyRules pNavigation (applyRules pSelectors "a".data)))))))))) ∧
    bTransforms "a".data =
      applyRules bDialogs (applyRules bStorage (applyRules bWaits (applyRules bNavigation
        (applyRules bMutations (applyRules bActions (applyRules bProperties
          (applyRules bSelectors "a".data))))))) :=
  C1_fixed_category_order "a".data

/-- C3 (amended): in the Playwright migrator every file is accounted for,
a file whose read throws is recorded in the error list with its path and
message, and the run completes with migrated plus errors covering the whole
batch. -/
theorem C3_per_file_errors (d : Bool) (o : List Char)
    (fs : List Char → Except (List Char) (List Char)) (files : List (List Char)) :
    (pMigrate d o fs files).migrated + (pMigrate d o fs files).errors.length = files.length ∧
    ∀ f m, f ∈ files → fs f = .error m → (f, m) ∈ (pMigrate d o fs files).errors := by
  constructor
  · exact pLoop_count d o fs files
  · intro f m hf he
    exact pLoop_err_mem d o fs files f m hf he

/-- C7: the rendered step-definition text binds every unique phrase exactly
once: the output is duplicate-free, a phrase synthesized by any number of
files is bound once, and no baseline phrase of src/common.steps.ts is bound
twice. -/
theorem C7_render_unique (perFile : List (List String)) :
    (renderPhrases (runVocabulary perFile)).Nodup ∧
    (∀ p, p ∈ runVocabulary perFile →
      List.count p (renderPhrases (runVocabulary perFile)) = 1) ∧
    (∀ p, p ∈ baselinePhrases →
      List.count p (renderPhrases (runVocabulary perFile)) = 1) := by
  refine ⟨List.nodup_dedup _, ?_, ?_⟩
  · intro p hp
    exact List.count_eq_one_of_mem (List.nodup_dedup _)
      (List.mem_dedup.mpr (List.mem_append.mpr (Or.inr hp)))
  · intro p hp
    exact List.count_eq_one_of_mem (List.nodup_dedup _)
      (List.mem_dedup.mpr (List.mem_append.mpr (Or.inl hp)))

/-- C7 (witness): two files both synthesizing the click phrase still yield
exactly one binding for it. -/
theorem C7_render_unique_witness :
    "When I click on \".login-btn\"" ∈
      runVocabulary [["When I click on \".login-btn\""], ["When I click on \".login-btn\""]] ∧
    List.count "When I click on \".login-btn\""
      (renderPhrases (runVocabulary
        [["When I click on \".login-btn\""], ["When I click on \".login-btn\""]])) = 1 :=
  ⟨by decide, (C7_render_unique _).2.1 _ (by decide)⟩

/-- C9: with dryRun enabled no filesystem effect is produced by migrate in
either migrator, and analyze and setup write nothing. -/
theorem C9_dry_run_no_writes :
    (∀ (o : List Char) (fs : List Char → Except (List Char) (List Char))
        (files : List (List Char)), (pMigrate true o fs files).ops = []) ∧
    (∀ (o : List Char) (g : List Char → List Char) (files : List (List Char)),
        bOpsE (bMigrate true o (okFs g) files) = []) ∧
    pAnalyzeWritePaths true = [] ∧ bAnalyzeWritePaths true = [] ∧
    pSetupWritePaths true = [] ∧ bSetupWritePaths true = [] := by
  refine ⟨?_, ?_, rfl, rfl, rfl, rfl⟩
  · intro o fs files
    simp [pMigrate, pLoop_dry_ops]
  · intro o g files
    simp [bMigrate, bLoop_okFs, bOpsE, bPureRun_dry_ops, Except.map]

/-- C10 (amended): migration writes file contents only to paths strictly
under the configured output directory, and an input file that does not lie
under the output directory is never written. -/
theorem C10_writes_under_output_dir (o : List Char)
    (fs : List Char → Except (List Char) (List Char)) (files : List (List Char)) :
    (∀ op ∈ (pMigrate false o fs files).ops, op.isW = true →
      startsL (o ++ ['/']) op.path = true) ∧
    (∀ f ∈ files, startsL (o ++ ['/']) f = false →
      ∀ c, FsOp.fwrite f c ∉ (pMigrate false o fs files).ops) := by
  have h1 : ∀ op ∈ (pMigrate false o fs files).ops, op.isW = true →
      startsL (o ++ ['/']) op.path = true := by
    intro op hop hw
    simp only [pMigrate, if_neg (by simp : ¬False), Bool.false_eq_true, if_false,
      List.cons_append, List.nil_append, List.mem_cons] at hop
    rcases hop with h | h
    · subst h; simp [FsOp.isW] at hw
    · exact pLoop_writes_prefixed o fs files op h hw
  refine ⟨h1, ?_⟩
  intro f hf hnf c hmem
  have := h1 _ hmem rfl
  simp only [FsOp.path] at this
  rw [hnf] at this
  cases this

/-- A prefix of the shape x, y, quote starts any text of the shape x, y,
quote, tail. -/
theorem startsL_mid_quote (x y t : List Char) :
    startsL (x ++ (y ++ ['\''])) (x ++ (y ++ ('\'' :: t))) = true := by
  rw [startsL_app_both, startsL_app_both]
  simp [startsL]

/-- C2 (amended): on text left unchanged by every substitution rule and by
the structure conversion, and whose import-prefixed form is left unchanged
by the transformations, the structure conversion and the cleanup, rewrite
only prepends the canonical import when it is absent, and rewrite is
idempotent there. -/
theorem C2_fixpoint (s : List Char)
    (h1 : pTransforms s = s) (h2 : pStructure s = s)
    (h3 : pCleanup (pAddImport s) = pAddImport s)
    (h4 : pTransforms (pAddImport s) = pAddImport s)
    (h5 : pStructure (pAddImport s) = pAddImport s) :
    rewriteP s = pAddImport s ∧ rewriteP (rewriteP s) = rewriteP s := by
  have hfix : rewriteP s = pAddImport s := by
    unfold rewriteP
    rw [h1, h2, h3]
  refine ⟨hfix, ?_⟩
  rw [hfix]
  unfold rewriteP
  rw [h4, h5, pAddImport_idem, h3]

/-- C4 (amended): in the browser-JS migrator a file with an empty detected
pattern set is skipped: it is counted in the skipped total, every file is
counted in either total, and the written outputs are exactly one per file
with a non-empty pattern set. -/
theorem C4_empty_detection_skipped (o : List Char) (g : List Char → List Char)
    (files : List (List Char)) :
    bSkE (bMigrate false o (okFs g) files) =
      (files.filter (fun f => decide (detectPatterns (g f) = []))).length ∧
    bMgE (bMigrate false o (okFs g) files) =
      (files.filter (fun f => !decide (detectPatterns (g f) = []))).length ∧
    bSkE (bMigrate false o (okFs g) files) + bMgE (bMigrate false o (okFs g) files) =
      files.length ∧
    ((bOpsE (bMigrate false o (okFs g) files)).filter FsOp.isW).map FsOp.path =
      (files.filter (fun f => !decide (detectPatterns (g f) = []))).map
        (fun f => pJoin o (bOutRel f)) := by
  have hb := bLoop_okFs false o g files
  have hsk : bSkE (bMigrate false o (okFs g) files) =
      (files.filter (fun f => decide (detectPatterns (g f) = []))).length := by
    simp [bMigrate, hb, Except.map, bSkE, bPureRun_sk]
  have hmg : bMgE (bMigrate false o (okFs g) files) =
      (files.filter (fun f => !decide (detectPatterns (g f) = []))).length := by
    simp [bMigrate, hb, Except.map, bMgE, bPureRun_mg]
  refine ⟨hsk, hmg, ?_, ?_⟩
  · rw [hsk, hmg]
    exact (List.length_eq_length_filter_add _).symm
  · simp [bMigrate, hb, Except.map, bOpsE, List.filter_append, FsOp.isW, bPureRun_writes]

/-- C5 (amended): for content with no target import and no describe, it or
test marker, wrapTest emits a single synthetic test named main inside a
describe block titled by the base name with dots and hyphens replaced by
spaces. -/
theorem C5_wrap_main (c p : List Char)
    (h1 : hasSub impNeedle c = false) (h2 : hasMatch bStructRe c = false) :
    hasSub "test('main',".data (wrapTest c p) = true ∧
    hasSub ("test.describe('".data ++
        ((baseNameJs p).map (fun ch => if ch = '.' ∨ ch = '-' then ' ' else ch)) ++
        "'".data) (wrapTest c p) = true := by
  have hw : wrapTest c p =
      impHeader ++ "test.describe('".data ++
        ((baseNameJs p).map (fun ch => if ch = '.' ∨ ch = '-' then ' ' else ch)) ++
        "', () => \x7b\n".data ++
        "  test('main', async (\x7b page \x7d) => \x7b\n".data ++
        indent4 c ++ "\n  \x7d);\n\x7d);\n".data := by
    unfold wrapTest
    rw [h1, h2]
    simp
  constructor
  · rw [hw]
    simp only [List.append_assoc]
    apply hasSub_app_l
    apply hasSub_app_l
    apply hasSub_app_l
    apply hasSub_app_l
    apply hasSub_app_r
    decide
  · rw [hw]
    simp only [List.append_assoc]
    apply hasSub_app_l
    apply hasSub_of_startsL
    exact startsL_mid_quote _ _ _

/-- C8 (amended): migration in rewrite mode produces exactly one written
output per migrated file; the output name is normalized to the spec.ts
suffix for names matching the cy, spec or test extension pattern in the
Playwright migrator and for js names in the browser-JS migrator, and is
kept unchanged otherwise. -/
theorem C8_one_output_per_file (o : List Char)
    (fs : List Char → Except (List Char) (List Char)) (files : List (List Char)) :
    ((pMigrate false o fs files).ops.filter FsOp.isW).length =
      (pMigrate false o fs files).migrated ∧
    pOutRel "a.test.js".data = "a.spec.ts".data ∧
    pOutRel "b.cy.ts".data = "b.spec.ts".data ∧
    pOutRel "c.spec.js".data = "c.spec.ts".data ∧
    bOutRel "d.js".data = "d.spec.ts".data := by
  refine ⟨?_, by decide, by decide, by decide, by decide⟩
  simp [pMigrate, List.filter_append, FsOp.isW, pLoop_writes_count]

/-- Filesystem of the C3 counterexample: the first file read throws, the
second succeeds. -/
def fsC3 : List Char → Except (List Char) (List Char) := fun p =>
  if p = "a.test.js".data then .error "EACCES: permission denied".data
  else .ok "document.getElementById('x')".data

/-- C3 (counterexample): in the browser-JS migrator a read error is not
caught per file: with a readable second file in the batch, migrate aborts
with the raw error, records nothing in an error list and reports no run. -/
theorem C3_counterexample :
    fsC3 "b.test.js".data = .ok "document.getElementById('x')".data ∧
    bMigrate false "tests".data fsC3 ["a.test.js".data, "b.test.js".data] =
      .error "EACCES: permission denied".data :=
  ⟨rfl, rfl⟩

/-- C3 (amended, witness): a two-file batch with one failing read, through
the Playwright migrator theorem. -/
theorem C3_per_file_errors_witness :
    ("bad.js".data, "boom".data) ∈
      (pMigrate false "tests".data
        (fun p => if p = "bad.js".data then .error "boom".data else .ok "x".data)
        ["good.test.js".data, "bad.js".data]).errors ∧
    (pMigrate false "tests".data
        (fun p => if p = "bad.js".data then .error "boom".data else .ok "x".data)
        ["good.test.js".data, "bad.js".data]).migrated +
      (pMigrate false "tests".data
        (fun p => if p = "bad.js".data then .error "boom".data else .ok "x".data)
        ["good.test.js".data, "bad.js".data]).errors.length = 2 :=
  ⟨(C3_per_file_errors false "tests".data _ _).2 "bad.js".data "boom".data
      (by decide) (by rfl),
    (C3_per_file_errors false "tests".data _ _).1⟩

/-- C4 (counterexample): a file with an empty detected pattern set is still
rewritten by the Playwright migrator: its migrate writes an output for a
file whose content matches no pattern at all. -/
theorem C4_counterexample :
    detectPatterns "const x = 1 + 1;".data = [] ∧
    (pMigrate false "tests".data (okFs (fun _ => "const x = 1 + 1;".data))
        ["e2e/calc.js".data]).ops.any FsOp.isW = true :=
  ⟨by decide, by decide⟩

/-- C5 (counterexample): for a file with no test declarations the synthetic
test is named main, not Main test, and the title keeps underscores and case,
unlike the claimed title-cased delimiter replacement. -/
theorem C5_counterexample :
    specTitle "login_flow.test.js".data = "Login Flow Test".data ∧
    hasSub "Main test".data
      (wrapTest "const a = 1;".data "login_flow.test.js".data) = false ∧
    hasSub "Login Flow Test".data
      (wrapTest "const a = 1;".data "login_flow.test.js".data) = false ∧
    hasSub "test('main'".data
      (wrapTest "const a = 1;".data "login_flow.test.js".data) = true ∧
    hasSub "test.describe('login_flow test'".data
      (wrapTest "const a = 1;".data "login_flow.test.js".data) = true := by
  refine ⟨by decide, by decide, by decide, by decide, by decide⟩

/-- C5 (amended, witness): the wrapTest theorem at a concrete file. -/
theorem C5_wrap_main_witness :
    hasSub "test('main',".data (wrapTest "const a = 1;".data "calc.js".data) = true ∧
    hasSub ("test.describe('".data ++
        ((baseNameJs "calc.js".data).map (fun ch => if ch = '.' ∨ ch = '-' then ' ' else ch)) ++
        "'".data) (wrapTest "const a = 1;".data "calc.js".data) = true :=
  C5_wrap_main "const a = 1;".data "calc.js".data (by decide) (by decide)

/-- C8 (counterexample): a plain js input that the include patterns pick up
keeps its name: the written output path does not end in the spec.ts suffix. -/
theorem C8_counterexample :
    pOutRel "e2e/util.js".data = "e2e/util.js".data ∧
    endsL ".spec.ts".data (pOutRel "e2e/util.js".data) = false ∧
    (pMigrate false "tests".data (okFs (fun _ => "x".data))
        ["e2e/util.js".data]).ops.any
      (fun op => op.isW && op.path == "tests/e2e/util.js".data) = true :=
  ⟨by decide, by decide, by decide⟩

/-- C10 (counterexample): when an input file already lies under the output
directory at a colliding path, migration writes to that very input path,
overwriting an input test file. -/
theorem C10_counterexample :
    "tests/a.spec.ts".data ∈ ["a.test.js".data, "tests/a.spec.ts".data] ∧
    (pMigrate false "tests".data (okFs (fun _ => "x".data))
        ["a.test.js".data, "tests/a.spec.ts".data]).ops.any
      (fun op => op.isW && op.path == "tests/a.spec.ts".data) = true :=
  ⟨by decide, by decide⟩

/-- C10 (amended, witness): an input outside the output directory is never
written, through the theorem at a concrete batch. -/
theorem C10_writes_under_output_dir_witness :
    FsOp.fwrite "a.test.js".data [] ∉
      (pMigrate false "tests".data (okFs (fun _ => "x".data)) ["a.test.js".data]).ops :=
  (C10_writes_under_output_dir "tests".data (okFs (fun _ => "x".data))
      ["a.test.js".data]).2 "a.test.js".data (by decide) (by decide) []

/-- C2 (counterexample): a text containing the target import on which no
substitution rule and no structure pattern matches, and which the import
step leaves unchanged, is still changed by rewrite: the cleanup collapses
its blank lines, so rewrite is not the identity modulo import prepending. -/
theorem C2_counterexample :
    pTransforms "from '@playwright/test'\nq\n\n\n\nw\n".data =
      "from '@playwright/test'\nq\n\n\n\nw\n".data ∧
    pStructure "from '@playwright/test'\nq\n\n\n\nw\n".data =
      "from '@playwright/test'\nq\n\n\n\nw\n".data ∧
    pAddImport "from '@playwright/test'\nq\n\n\n\nw\n".data =
      "from '@playwright/test'\nq\n\n\n\nw\n".data ∧
    rewriteP "from '@playwright/test'\nq\n\n\n\nw\n".data ≠
      "from '@playwright/test'\nq\n\n\n\nw\n".data :=
  ⟨by decide, by decide, by decide, by decide⟩

/-- C2 (amended, witness): the fixpoint theorem at a concrete already-plain
text with no import, where rewrite only prepends the import and a second
rewrite changes nothing. -/
theorem C2_fixpoint_witness :
    rewriteP "const a = 1;\n".data = pAddImport "const a = 1;\n".data ∧
    rewriteP (rewriteP "const a = 1;\n".data) = rewriteP "const a = 1;\n".data :=
  C2_fixpoint "const a = 1;\n".data (by decide) (by decide) (by decide) (by decide) (by decide)

/-- C6 (counterexample): the rewrite output can contain duplicate
consecutive await markers: a pre-existing pair plus a rule-introduced await
yields three in a row, and the single collapse pass leaves two. -/
theorem C6_counterexample :
    hasSub "await await".data (rewriteP "await await cy.visit('/x')".data) = true := by
  decide

/-- C6 (amended): the duplicate-await normalization is one global pass that
collapses each non-overlapping await-whitespace-await pair to one await: a
pair produced by independent rules becomes a single await, but a run of
three consecutive awaits only shrinks to two, so duplicates can survive. -/
theorem C6_collapse_single_pass :
    hasSub "await await".data (rewriteP "await cy.visit('/x')".data) = false ∧
    hasSub "await page.goto('/x')".data (rewriteP "await cy.visit('/x')".data) = true ∧
    hasSub "await await".data (rewriteP "await await cy.visit('/x')".data) = true :=
  ⟨by decide, by decide, by decide⟩

/-- C1 (counterexample): applying the categories in the order the claim
states differs observably from the code: with properties placed before the
assertions category, the innerText read is rewritten before the equality
assertion rule can match, so the assertion stays in legacy form. -/
theorem C1_counterexample :
    rewriteP "expect(el.innerText).to.equal('ok')".data ≠
      rewriteClaimP "expect(el.innerText).to.equal('ok')".data := by
  decide
